import Mathlib

/- Shallow embedding of src/langml/langml/transformer/layers.py: the gelu activation,
   the FeedForward layer and the SineCosinePositionEmbedding layer. Tensors are
   modelled by their row-major flat data together with a static shape list; the host
   framework scalar primitives K.tanh, K.sin, K.cos and K.pow are abstracted as
   explicit function arguments (a ScalarOps record) so that every definition stays
   computable and can be evaluated on concrete rational inputs. -/

/-- Python attribute values that occur in the configuration of the two layer classes. -/
inductive PyVal where
  | bool (b : Bool)
  | str (s : String)
  | int (n : Nat)
  | float (q : ℚ)
  | none
deriving DecidableEq

/-- Host framework scalar primitives used by SineCosinePositionEmbedding.call:
    K.sin, K.cos and K.pow. -/
structure ScalarOps (α : Type) where
  sinf : α → α
  cosf : α → α
  powf : α → α → α

/-- A tensor: its static shape together with its row-major flat data. -/
structure Tensor (α : Type) where
  shape : List Nat
  data : Nat → α

/-- Argument of K.tanh inside gelu (layers.py line 31):
    sqrt(2.0 / math.pi) * (x + 0.044715 * x ** 3); the irrational constant
    math.sqrt(2.0 / math.pi) is passed in as sqrtTwoOverPi. -/
def geluTanhArg {α : Type} [Field α] (sqrtTwoOverPi : α) (x : α) : α :=
  sqrtTwoOverPi * (x + 0.044715 * x ^ 3)

/-- gelu (layers.py lines 24-31): 0.5 * x * (1.0 + K.tanh (...)); the host primitive
    K.tanh is passed in as tanhf. -/
def gelu {α : Type} [Field α] (tanhf : α → α) (sqrtTwoOverPi : α) (x : α) : α :=
  0.5 * x * (1.0 + tanhf (geluTanhArg sqrtTwoOverPi x))

/-- Value-relevant configuration of FeedForward (layers.py lines 38-61): hidden width,
    resolved activation (None when the host registry resolves None to None), bias flag,
    dropout rate. The initializer, regularizer and constraint identifiers only select
    host-side weight initialisation and live in FeedForwardConfig further below. -/
structure FeedForward (α : Type) where
  units : Nat
  activation : Option (α → α)
  use_bias : Bool
  dropout_rate : ℚ

/-- Weights created by FeedForward.build (layers.py lines 80-113). -/
structure FFWeights (α : Type) where
  W1 : Nat → Nat → α
  W2 : Nat → Nat → α
  b1 : Nat → α
  b2 : Nat → α

/-- Static shape rule of the host framework K.dot: (..., a) x (a, b) -> (..., b). -/
def dotShapeRule (x w : List Nat) : Option (List Nat) :=
  match x.getLast?, w with
  | Option.some a, [a2, b] => if a = a2 then Option.some (x.dropLast ++ [b]) else Option.none
  | _, _ => Option.none

/-- K.dot of a (positions x features) tensor with a weight matrix, contracting n
    entries of the trailing axis. -/
def kerasDot {α : Type} [Field α] (n : Nat) (x w : Nat → Nat → α) : Nat → Nat → α :=
  fun p j => Finset.sum (Finset.range n) (fun k => x p k * w k j)

/-- Shapes of the weights created by FeedForward.build (lines 80-110): feature_dim is
    int(input_shape[-1]); indexing an empty static shape is the host IndexError. -/
def FeedForward.build_shapes {α : Type} (self : FeedForward α) (input_shape : List Nat) :
    Except String (List (String × List Nat)) :=
  match input_shape.getLast? with
  | Option.none => Except.error "IndexError"
  | Option.some feature_dim =>
    Except.ok ([("W1", [feature_dim, self.units]), ("W2", [self.units, feature_dim])] ++
      (if self.use_bias then [("b1", [self.units]), ("b2", [feature_dim])] else []))

/-- Lines 111-112 of FeedForward.build: a Dropout sublayer (carrying its rate) is
    created when dropout_rate > 0.0 and not created otherwise. -/
def FeedForward.buildDropout {α : Type} (self : FeedForward α) : Option ℚ :=
  if self.dropout_rate > 0 then Option.some self.dropout_rate else Option.none

/-- FeedForward.call (lines 115-130). The host Dropout sublayer is modelled as a
    function of the ambient training flag; feature_dim is the contraction width that
    build bound from the input shape. -/
def FeedForward.call {α : Type} [Field α] (self : FeedForward α) (w : FFWeights α)
    (feature_dim : Nat) (dropout : Bool → (Nat → Nat → α) → Nat → Nat → α)
    (training : Bool) (inputs : Nat → Nat → α) : Nat → Nat → α :=
  let hidden := kerasDot feature_dim inputs w.W1
  let hidden := if self.use_bias then fun p j => hidden p j + w.b1 j else hidden
  let hidden := match self.activation with
    | Option.some act => fun p j => act (hidden p j)
    | Option.none => hidden
  let hidden := if self.dropout_rate > 0 then dropout training hidden else hidden
  let output := kerasDot self.units hidden w.W2
  let output := if self.use_bias then fun p j => output p j + w.b2 j else output
  output

/-- FeedForward.compute_output_shape (lines 142-143): the input shape unchanged. -/
def FeedForward.compute_output_shape {α : Type} (self : FeedForward α)
    (input_shape : List Nat) : List Nat :=
  input_shape

/-- Follows the spec wording (section 4.1): Dense1, the feature_dim -> units linear map
    with its optional bias b1. -/
def specDense1 {α : Type} [Field α] (self : FeedForward α) (w : FFWeights α)
    (feature_dim : Nat) (x : Nat → Nat → α) : Nat → Nat → α :=
  let h := kerasDot feature_dim x w.W1
  if self.use_bias then fun p j => h p j + w.b1 j else h

/-- Follows the spec wording (section 4.1): the optional nonlinearity step. -/
def specActivationStep {α : Type} [Field α] (self : FeedForward α)
    (x : Nat → Nat → α) : Nat → Nat → α :=
  match self.activation with
  | Option.some act => fun p j => act (x p j)
  | Option.none => x

/-- Follows the spec wording (section 4.1): the optional dropout step, engaged only
    when the configured rate is positive. -/
def specDropoutStep {α : Type} [Field α] (self : FeedForward α)
    (dropout : Bool → (Nat → Nat → α) → Nat → Nat → α) (training : Bool)
    (x : Nat → Nat → α) : Nat → Nat → α :=
  if self.dropout_rate > 0 then dropout training x else x

/-- Follows the spec wording (section 4.1): Dense2, the units -> feature_dim linear map
    with its optional bias b2. -/
def specDense2 {α : Type} [Field α] (self : FeedForward α) (w : FFWeights α)
    (x : Nat → Nat → α) : Nat → Nat → α :=
  let h := kerasDot self.units x w.W2
  if self.use_bias then fun p j => h p j + w.b2 j else h

/-- Serialised form of an optional integer attribute. -/
def pyOfOptNat : Option Nat → PyVal
  | Option.some d => PyVal.int d
  | Option.none => PyVal.none

/-- Read an optional integer back from its serialised form. -/
def pyToOptNat : PyVal → Option (Option Nat)
  | PyVal.int d => Option.some (Option.some d)
  | PyVal.none => Option.some Option.none
  | _ => Option.none

/-- SineCosinePositionEmbedding state after a successful __init__ (lines 151-182). -/
structure SineCosinePositionEmbedding where
  supports_masking : Bool
  mode : String
  output_dim : Option Nat
deriving DecidableEq

/-- SineCosinePositionEmbedding.__init__ (lines 151-182): the assert on mode, the two
    output_dim checks for the expand and concat modes, then the field assignments. A
    raise is an error value, so no constructed instance survives a failed check. -/
def SineCosinePositionEmbedding.init (mode : String) (output_dim : Option Nat) :
    Except String SineCosinePositionEmbedding :=
  if mode ∈ (["expand", "add", "concat"] : List String) then
    if mode ∈ (["expand", "concat"] : List String) then
      match output_dim with
      | Option.none =>
        Except.error ("NotImplementedError: output_dim is required in " ++ mode ++ " mode")
      | Option.some d =>
        if d % 2 ≠ 0 then
          Except.error "NotImplementedError: Not support an odd output dimension"
        else Except.ok ⟨true, mode, Option.some d⟩
    else Except.ok ⟨true, mode, output_dim⟩
  else Except.error ("AssertionError: not support mode " ++ mode ++
    ", options: expand | add | concat")

/-- Python attribute lookup on a SineCosinePositionEmbedding instance: exactly the
    attributes assigned by __init__ (lines 173, 180, 181) resolve. No code path of the
    class ever assigns an attribute named model, so that lookup falls through. -/
def SineCosinePositionEmbedding.getattr (self : SineCosinePositionEmbedding) :
    String → Option PyVal
  | "supports_masking" => Option.some (PyVal.bool self.supports_masking)
  | "mode" => Option.some (PyVal.str self.mode)
  | "output_dim" => Option.some (pyOfOptNat self.output_dim)
  | _ => Option.none

/-- Message of the AttributeError raised by reading self.model at line 211. -/
def scpeModelAttrMsg : String :=
  "AttributeError: SineCosinePositionEmbedding object has no attribute model"

/-- SineCosinePositionEmbedding.get_config (lines 184-191), the layer-owned part of
    the flat configuration mapping (the base-layer keys are host framework state). -/
def SineCosinePositionEmbedding.get_config (self : SineCosinePositionEmbedding) :
    List (String × PyVal) :=
  [("mode", PyVal.str self.mode), ("output_dim", pyOfOptNat self.output_dim)]

/-- Host framework reconstruction cls(**config): read mode and output_dim back from
    the flat mapping and run __init__ on them. -/
def SineCosinePositionEmbedding.from_config (cfg : List (String × PyVal)) :
    Except String SineCosinePositionEmbedding :=
  match cfg.lookup "mode", cfg.lookup "output_dim" with
  | Option.some (PyVal.str m), Option.some v =>
    match pyToOptNat v with
    | Option.some od => SineCosinePositionEmbedding.init m od
    | Option.none => Except.error "TypeError: output_dim"
  | _, _ => Except.error "TypeError: config"

/-- SineCosinePositionEmbedding.compute_output_shape (lines 200-205) over static
    shapes whose entries may be unknown (Python None). In concat mode, input_shape[-1]
    of an empty tuple is the host IndexError and None + output_dim is the host
    TypeError; both are dead for well-formed 3-D inputs. -/
def SineCosinePositionEmbedding.compute_output_shape (self : SineCosinePositionEmbedding)
    (input_shape : List (Option Nat)) : Except String (List (Option Nat)) :=
  if self.mode = "expand" then Except.ok (input_shape ++ [self.output_dim])
  else if self.mode = "concat" then
    match input_shape.getLast? with
    | Option.none => Except.error "IndexError"
    | Option.some last =>
      match last, self.output_dim with
      | Option.some f, Option.some d =>
        Except.ok (input_shape.dropLast ++ [Option.some (f + d)])
      | _, _ => Except.error "TypeError"
  else Except.ok input_shape

/-- Lines 212-215 of call: pos_input is the tiled integer sequence arange(0, seq_len)
    when the branch key equals the string add or the string concat (so the flat entry
    at row-major index j has value j mod seq_len), and the input tensor itself
    otherwise; afterwards it is cast to the ambient float type. -/
def posInputSel {α : Type} [Field α] (inputs : Tensor α) (seq_len : Nat) (m : PyVal) :
    Nat → α :=
  if m = PyVal.str "add" ∨ m = PyVal.str "concat" then
    fun j => ((j % seq_len : Nat) : α)
  else inputs.data

/-- Flat entry j of sim_embed (lines 218-226): the tensor has trailing axis of length
    output_dim / 2, so the position factor lives at j / (output_dim / 2) and the
    frequency index is i = j mod (output_dim / 2), with exponent evens i / output_dim
    where evens i = i * 2. -/
def sim_embed {α : Type} [Field α] (ops : ScalarOps α) (pos : Nat → α) (output_dim : Nat)
    (j : Nat) : α :=
  ops.sinf (pos (j / (output_dim / 2)) *
    (1 / ops.powf 10000 ((((j % (output_dim / 2)) * 2 : Nat) : α) / (output_dim : α))))

/-- Flat entry j of cos_embed (lines 227-234): identical layout, with exponent
    (odds i - 1) / output_dim where odds i = i * 2 + 1. -/
def cos_embed {α : Type} [Field α] (ops : ScalarOps α) (pos : Nat → α) (output_dim : Nat)
    (j : Nat) : α :=
  ops.cosf (pos (j / (output_dim / 2)) *
    (1 / ops.powf 10000 (((((j % (output_dim / 2)) * 2 + 1) - 1 : Nat) : α) / (output_dim : α))))

/-- Flat entry j of embed = K.stack([sim_embed, cos_embed], axis=-1) (line 235): the
    new innermost axis has length 2, so even flat offsets read sim_embed and odd flat
    offsets read cos_embed, both at flat offset j / 2. -/
def embedFlat {α : Type} [Field α] (ops : ScalarOps α) (pos : Nat → α) (output_dim : Nat)
    (j : Nat) : α :=
  if j % 2 = 0 then sim_embed ops pos output_dim (j / 2)
  else cos_embed ops pos output_dim (j / 2)

/-- Element (b, s, c) of output = K.reshape(embed, [-1, seq_len, output_dim])
    (line 236): a row-major reshape reads the flat stacked data at offset
    (b * seq_len + s) * output_dim + c. -/
def encOutput {α : Type} [Field α] (ops : ScalarOps α) (pos : Nat → α)
    (seq_len output_dim : Nat) (b s c : Nat) : α :=
  embedFlat ops pos output_dim ((b * seq_len + s) * output_dim + c)

/-- K.concatenate along the last axis (line 240) in flat row-major form: within every
    output row of length feat + d, the first feat entries come from x and the
    remaining d entries come from y. -/
def concatLast {α : Type} (feat d : Nat) (x y : Nat → α) : Nat → α :=
  fun j =>
    let c := j % (feat + d)
    if c < feat then x ((j / (feat + d)) * feat + c)
    else y ((j / (feat + d)) * d + (c - feat))

/-- Line 210 of call: output_dim is input_shape[2] when the mode is add, and the
    configured self.output_dim otherwise (which init made Some for every valid expand
    or concat layer). -/
def SineCosinePositionEmbedding.callOutputDim (self : SineCosinePositionEmbedding)
    (input_shape : List Nat) : Nat :=
  if self.mode = "add" then input_shape.getD 2 0 else self.output_dim.getD 0

/-- Lines 212-241 of call, the part after the read of self.model: select pos_input on
    the branch key m, build the sinusoid tensor, then compose with the input according
    to self.mode. -/
def SineCosinePositionEmbedding.callBody {α : Type} [Field α] (ops : ScalarOps α)
    (self : SineCosinePositionEmbedding) (inputs : Tensor α)
    (batch_size seq_len output_dim : Nat) (m : PyVal) : Tensor α :=
  let pos_input := posInputSel inputs seq_len m
  let output := embedFlat ops pos_input output_dim
  if self.mode = "add" then
    ⟨[batch_size, seq_len, output_dim], fun j => output j + inputs.data j⟩
  else if self.mode = "concat" then
    ⟨[batch_size, seq_len, inputs.shape.getD 2 0 + output_dim],
      concatLast (inputs.shape.getD 2 0) output_dim inputs.data output⟩
  else
    ⟨[batch_size, seq_len, output_dim], output⟩

/-- SineCosinePositionEmbedding.call (lines 207-241): read the static shape, compute
    output_dim (line 210), then evaluate the branch condition at line 211, which looks
    up the attribute model on self and therefore raises AttributeError; the remainder
    (callBody) is reached only if that lookup were to succeed. -/
def SineCosinePositionEmbedding.call {α : Type} [Field α] (ops : ScalarOps α)
    (self : SineCosinePositionEmbedding) (inputs : Tensor α) :
    Except String (Tensor α) :=
  let input_shape := inputs.shape
  let batch_size := input_shape.getD 0 0
  let seq_len := input_shape.getD 1 0
  let output_dim := SineCosinePositionEmbedding.callOutputDim self input_shape
  match SineCosinePositionEmbedding.getattr self "model" with
  | Option.none => Except.error scpeModelAttrMsg
  | Option.some m =>
    Except.ok (SineCosinePositionEmbedding.callBody ops self inputs batch_size seq_len
      output_dim m)

/-- Full constructor-level configuration of FeedForward (lines 38-61) at the level of
    canonical host identifiers: keras.activations.get and friends resolve an optional
    identifier to a callable or None, and the matching serialize maps it back to the
    same identifier, so the resolved configuration is modelled by the identifiers
    themselves. -/
structure FeedForwardConfig where
  units : Nat
  activation : Option String
  kernel_initializer : Option String
  kernel_regularizer : Option String
  kernel_constraint : Option String
  bias_initializer : Option String
  bias_regularizer : Option String
  bias_constraint : Option String
  use_bias : Bool
  dropout_rate : ℚ
deriving DecidableEq

/-- Host serialisation of an optional identifier: None serialises to None. -/
def serializeOptStr : Option String → PyVal
  | Option.some s => PyVal.str s
  | Option.none => PyVal.none

/-- FeedForward.get_config (lines 63-78), the layer-owned part of the flat mapping
    (the base-layer keys are host framework state). -/
def FeedForwardConfig.get_config (c : FeedForwardConfig) : List (String × PyVal) :=
  [("units", PyVal.int c.units),
   ("activation", serializeOptStr c.activation),
   ("kernel_initializer", serializeOptStr c.kernel_initializer),
   ("kernel_regularizer", serializeOptStr c.kernel_regularizer),
   ("kernel_constraint", serializeOptStr c.kernel_constraint),
   ("bias_initializer", serializeOptStr c.bias_initializer),
   ("bias_regularizer", serializeOptStr c.bias_regularizer),
   ("bias_constraint", serializeOptStr c.bias_constraint),
   ("use_bias", PyVal.bool c.use_bias),
   ("dropout_rate", PyVal.float c.dropout_rate)]

/-- Read an optional identifier back from a flat configuration mapping. -/
def readOptStr (cfg : List (String × PyVal)) (key : String) :
    Except String (Option String) :=
  match cfg.lookup key with
  | Option.some (PyVal.str s) => Except.ok (Option.some s)
  | Option.some PyVal.none => Except.ok Option.none
  | _ => Except.error ("TypeError: " ++ key)

/-- Read an integer entry back from a flat configuration mapping. -/
def readNat (cfg : List (String × PyVal)) (key : String) : Except String Nat :=
  match cfg.lookup key with
  | Option.some (PyVal.int n) => Except.ok n
  | _ => Except.error ("TypeError: " ++ key)

/-- Read a boolean entry back from a flat configuration mapping. -/
def readBool (cfg : List (String × PyVal)) (key : String) : Except String Bool :=
  match cfg.lookup key with
  | Option.some (PyVal.bool b) => Except.ok b
  | _ => Except.error ("TypeError: " ++ key)

/-- Read a float entry back from a flat configuration mapping. -/
def readFloat (cfg : List (String × PyVal)) (key : String) : Except String ℚ :=
  match cfg.lookup key with
  | Option.some (PyVal.float q) => Except.ok q
  | _ => Except.error ("TypeError: " ++ key)

/-- Host framework reconstruction cls(**config) for FeedForward: read every
    constructor argument back from the flat mapping and rebuild the configuration. -/
def FeedForwardConfig.from_config (cfg : List (String × PyVal)) :
    Except String FeedForwardConfig := do
  let u ← readNat cfg "units"
  let a ← readOptStr cfg "activation"
  let ki ← readOptStr cfg "kernel_initializer"
  let kr ← readOptStr cfg "kernel_regularizer"
  let kc ← readOptStr cfg "kernel_constraint"
  let bi ← readOptStr cfg "bias_initializer"
  let br ← readOptStr cfg "bias_regularizer"
  let bc ← readOptStr cfg "bias_constraint"
  let ub ← readBool cfg "use_bias"
  let dr ← readFloat cfg "dropout_rate"
  Except.ok ⟨u, a, ki, kr, kc, bi, br, bc, ub, dr⟩

/-- C1: for every SineCosinePositionEmbedding instance (hence for every mode, expand,
    add or concat) and every input tensor, forward evaluation raises AttributeError on
    the read of self.model at line 211 before any output tensor is produced: the rest
    of the forward path is unreachable. -/
theorem scpe_call_always_attribute_error {α : Type} [Field α] (ops : ScalarOps α)
    (self : SineCosinePositionEmbedding) (inputs : Tensor α) :
    SineCosinePositionEmbedding.call ops self inputs = Except.error scpeModelAttrMsg :=
  rfl

/-- C10: gelu computes 0.5 * x * (1 + tanh(sqrt(2 / pi) * (x + 0.044715 * x ^ 3))),
    vanishes at 0, and its tanh argument is odd-symmetric. -/
theorem gelu_formula {α : Type} [Field α] (tanhf : α → α) (c x : α) :
    gelu tanhf c x = 0.5 * x * (1 + tanhf (c * (x + 0.044715 * x ^ 3))) ∧
    gelu tanhf c 0 = 0 ∧
    geluTanhArg c (-x) = -(geluTanhArg c x) := by
  refine ⟨?_, ?_, ?_⟩
  · norm_num [gelu, geluTanhArg]
  · simp [gelu]
  · unfold geluTanhArg; ring

/-- C7: FeedForward.call is exactly the pipeline Dense2 (Dropout (Activation (Dense1 x)))
    with each optional step toggled by its own configuration field, in this fixed order. -/
theorem feedforward_call_pipeline {α : Type} [Field α] (self : FeedForward α)
    (w : FFWeights α) (feature_dim : Nat)
    (dropout : Bool → (Nat → Nat → α) → Nat → Nat → α) (training : Bool)
    (inputs : Nat → Nat → α) :
    FeedForward.call self w feature_dim dropout training inputs =
      specDense2 self w
        (specDropoutStep self dropout training
          (specActivationStep self (specDense1 self w feature_dim inputs))) :=
  rfl

/-- C8: with dropout_rate = 0 the build step creates no dropout layer, and call is
    independent of both the training flag and the host dropout primitive. -/
theorem feedforward_dropout_zero_deterministic {α : Type} [Field α]
    (units : Nat) (activation : Option (α → α)) (ub : Bool) (w : FFWeights α)
    (feature_dim : Nat) (drop1 drop2 : Bool → (Nat → Nat → α) → Nat → Nat → α)
    (t1 t2 : Bool) (inputs : Nat → Nat → α) :
    FeedForward.buildDropout (⟨units, activation, ub, 0⟩ : FeedForward α) =
      Option.none ∧
    FeedForward.call ⟨units, activation, ub, 0⟩ w feature_dim drop1 t1 inputs =
      FeedForward.call ⟨units, activation, ub, 0⟩ w feature_dim drop2 t2 inputs := by
  constructor
  · simp [FeedForward.buildDropout]
  · simp [FeedForward.call]

/-- C5: compute_output_shape appends output_dim in expand mode, adds output_dim to the
    trailing dimension in concat mode, and is the identity in add mode, from the static
    shape alone. -/
theorem scpe_output_shape_modes (b : Bool) (od : Option Nat)
    (shape pre : List (Option Nat)) (f d : Nat) :
    SineCosinePositionEmbedding.compute_output_shape ⟨b, "expand", od⟩ shape =
      Except.ok (shape ++ [od]) ∧
    SineCosinePositionEmbedding.compute_output_shape ⟨b, "concat", Option.some d⟩
        (pre ++ [Option.some f]) =
      Except.ok (pre ++ [Option.some (f + d)]) ∧
    SineCosinePositionEmbedding.compute_output_shape ⟨b, "add", od⟩ shape =
      Except.ok shape := by
  refine ⟨rfl, ?_, rfl⟩
  unfold SineCosinePositionEmbedding.compute_output_shape
  rw [if_neg (show ¬("concat" : String) = "expand" by decide),
    if_pos (show ("concat" : String) = "concat" from rfl), List.getLast?_concat,
    List.dropLast_concat]

/-- C6: FeedForward.compute_output_shape is the identity on shapes; build creates W1 of
    shape (feature_dim, units) and W2 of the transposed shape (units, feature_dim); and
    the two K.dot steps carry a trailing dimension of f to units and back to f, so the
    forward computation preserves the input shape end-to-end. -/
theorem feedforward_shape_preserved {α : Type} [Field α] (self : FeedForward α)
    (pre : List Nat) (f : Nat) :
    FeedForward.compute_output_shape self (pre ++ [f]) = pre ++ [f] ∧
    FeedForward.build_shapes self (pre ++ [f]) =
      Except.ok ([("W1", [f, self.units]), ("W2", [self.units, f])] ++
        (if self.use_bias then [("b1", [self.units]), ("b2", [f])] else [])) ∧
    dotShapeRule (pre ++ [f]) [f, self.units] = Option.some (pre ++ [self.units]) ∧
    dotShapeRule (pre ++ [self.units]) [self.units, f] = Option.some (pre ++ [f]) := by
  refine ⟨rfl, ?_, ?_, ?_⟩
  · unfold FeedForward.build_shapes
    rw [List.getLast?_concat]
  · unfold dotShapeRule
    rw [List.getLast?_concat]
    simp [List.dropLast_concat]
  · unfold dotShapeRule
    rw [List.getLast?_concat]
    simp [List.dropLast_concat]

/-- C4: construction succeeds exactly for a valid mode string with, in expand and
    concat modes, a present and even output_dim; mode add succeeds for every
    output_dim value, None and odd values included. -/
theorem scpe_init_validation (mode : String) (od : Option Nat) :
    ((∃ self, SineCosinePositionEmbedding.init mode od = Except.ok self) ↔
      (mode = "add" ∨ ((mode = "expand" ∨ mode = "concat") ∧
        ∃ d, od = Option.some d ∧ d % 2 = 0))) ∧
    (∃ self, SineCosinePositionEmbedding.init "add" od = Except.ok self) := by
  constructor
  · constructor
    · rintro ⟨self, h⟩
      unfold SineCosinePositionEmbedding.init at h
      split at h
      · rename_i h1
        split at h
        · rename_i h2
          cases od with
          | none => exact Except.noConfusion h
          | some d =>
            by_cases hpar : d % 2 = 0
            · right
              have h2' : mode = "expand" ∨ mode = "concat" := by simpa using h2
              exact ⟨h2', d, rfl, hpar⟩
            · simp [hpar] at h
        · rename_i h2
          left
          have h1' : mode = "expand" ∨ mode = "add" ∨ mode = "concat" := by
            simpa using h1
          have h2' : ¬(mode = "expand" ∨ mode = "concat") := by simpa using h2
          tauto
      · exact Except.noConfusion h
    · rintro (rfl | ⟨hm, d, rfl, hd⟩)
      · exact ⟨⟨true, "add", od⟩, rfl⟩
      · rcases hm with rfl | rfl
        · refine ⟨⟨true, "expand", Option.some d⟩, ?_⟩
          unfold SineCosinePositionEmbedding.init
          rw [if_pos (by decide), if_pos (by decide)]
          simp [hd]
        · refine ⟨⟨true, "concat", Option.some d⟩, ?_⟩
          unfold SineCosinePositionEmbedding.init
          rw [if_pos (by decide), if_pos (by decide)]
          simp [hd]
  · exact ⟨⟨true, "add", od⟩, rfl⟩

/-- C2, settling the code bug: as written, call raises AttributeError at a concrete
    valid input (first conjunct, evaluating the code at the failing input), while the
    sinusoid tensor that lines 215-236 build from the position values does place
    sin(p / 10000 ^ (2 i / output_dim)) in output channel 2 i and the cosine with the
    same exponent in output channel 2 i + 1, for every frequency index
    i < output_dim / 2 and even output_dim. -/
theorem sincos_channel_interleaving {α : Type} [Field α] (ops : ScalarOps α)
    (pos : Nat → α) (S d b s i : Nat) (hd : d % 2 = 0) (hi : i < d / 2) :
    (SineCosinePositionEmbedding.call (⟨id, id, fun _ _ => 1⟩ : ScalarOps ℚ)
        ⟨true, "add", Option.none⟩ ⟨[1, 2, 4], fun _ => 0⟩ =
      Except.error scpeModelAttrMsg) ∧
    encOutput ops pos S d b s (2 * i) =
      ops.sinf (pos (b * S + s) * (1 / ops.powf 10000 ((2 * (i : α)) / (d : α)))) ∧
    encOutput ops pos S d b s (2 * i + 1) =
      ops.cosf (pos (b * S + s) * (1 / ops.powf 10000 ((2 * (i : α)) / (d : α)))) := by
  obtain ⟨m, rfl⟩ : ∃ m, d = 2 * m := ⟨d / 2, by omega⟩
  have hi' : i < m := by omega
  have hm : 0 < m := by omega
  have e4 : 2 * m / 2 = m := by omega
  have e5 : ((b * S + s) * m + i) / m = b * S + s := by
    rw [add_comm ((b * S + s) * m) i, Nat.add_mul_div_right i (b * S + s) hm,
      Nat.div_eq_of_lt hi', Nat.zero_add]
  have e6 : ((b * S + s) * m + i) % m = i := by
    rw [add_comm ((b * S + s) * m) i, Nat.add_mul_mod_self_right,
      Nat.mod_eq_of_lt hi']
  refine ⟨rfl, ?_, ?_⟩
  · unfold encOutput embedFlat
    have e1 : (b * S + s) * (2 * m) + 2 * i = 2 * ((b * S + s) * m + i) := by ring
    rw [e1]
    have e2 : (2 * ((b * S + s) * m + i)) % 2 = 0 := by omega
    have e3 : (2 * ((b * S + s) * m + i)) / 2 = (b * S + s) * m + i := by omega
    rw [if_pos e2, e3]
    unfold sim_embed
    rw [e4, e5, e6]
    have e7 : ((i * 2 : Nat) : α) = 2 * (i : α) := by push_cast; ring
    rw [e7]
  · unfold encOutput embedFlat
    have e1 : (b * S + s) * (2 * m) + (2 * i + 1) = 2 * ((b * S + s) * m + i) + 1 := by
      ring
    rw [e1]
    have e2 : ¬((2 * ((b * S + s) * m + i) + 1) % 2 = 0) := by omega
    have e3 : (2 * ((b * S + s) * m + i) + 1) / 2 = (b * S + s) * m + i := by omega
    rw [if_neg e2, e3]
    unfold cos_embed
    rw [e4, e5, e6]
    have e7 : (((i * 2 + 1) - 1 : Nat) : α) = 2 * (i : α) := by
      have e8 : (i * 2 + 1) - 1 = i * 2 := by omega
      rw [e8]; push_cast; ring
    rw [e7]

/-- Witness for sincos_channel_interleaving at ops on the rationals, position value 7,
    seq_len 1, output_dim 4, batch and sequence index 0 and frequency index 1. -/
theorem sincos_channel_interleaving_witness :
    4 % 2 = 0 ∧ 1 < 4 / 2 ∧
    ((SineCosinePositionEmbedding.call (⟨id, id, fun _ _ => 1⟩ : ScalarOps ℚ)
        ⟨true, "add", Option.none⟩ ⟨[1, 2, 4], fun _ => 0⟩ =
      Except.error scpeModelAttrMsg) ∧
    encOutput (⟨id, id, fun _ _ => 1⟩ : ScalarOps ℚ) (fun _ => 7) 1 4 0 0 (2 * 1) =
      (⟨id, id, fun _ _ => 1⟩ : ScalarOps ℚ).sinf ((fun _ => (7 : ℚ)) (0 * 1 + 0) *
        (1 / (⟨id, id, fun _ _ => 1⟩ : ScalarOps ℚ).powf 10000
          ((2 * ((1 : Nat) : ℚ)) / ((4 : Nat) : ℚ)))) ∧
    encOutput (⟨id, id, fun _ _ => 1⟩ : ScalarOps ℚ) (fun _ => 7) 1 4 0 0 (2 * 1 + 1) =
      (⟨id, id, fun _ _ => 1⟩ : ScalarOps ℚ).cosf ((fun _ => (7 : ℚ)) (0 * 1 + 0) *
        (1 / (⟨id, id, fun _ _ => 1⟩ : ScalarOps ℚ).powf 10000
          ((2 * ((1 : Nat) : ℚ)) / ((4 : Nat) : ℚ))))) :=
  ⟨rfl, by decide,
    sincos_channel_interleaving (⟨id, id, fun _ _ => 1⟩ : ScalarOps ℚ)
      (fun _ => 7) 1 4 0 0 1 rfl (by decide)⟩

/-- C3, settling the code bug: as written, call raises AttributeError at a concrete
    valid input (first conjunct, evaluating the code at the failing input); in the
    remainder of the forward path, the position values selected for branch keys add
    and concat are the integer sequence 0..seq_len-1 broadcast across the batch (the
    flat entry at row b, column s is s), for branch key expand they are the values of
    the input tensor itself; line 210 takes the add-mode encoding width from the
    trailing dimension of the input shape whatever output_dim was configured, and the
    add composition adds the sinusoid tensor elementwise to the input. -/
theorem pos_input_and_add_composition {α : Type} [Field α] (ops : ScalarOps α)
    (inputs : Tensor α) (S b s j B dOut : Nat) (od : Option Nat) (shape : List Nat)
    (hs : s < S) :
    (SineCosinePositionEmbedding.call (⟨id, id, fun _ _ => 1⟩ : ScalarOps ℚ)
        ⟨true, "concat", Option.some 4⟩ ⟨[1, 2, 3], fun _ => 0⟩ =
      Except.error scpeModelAttrMsg) ∧
    posInputSel inputs S (PyVal.str "add") (b * S + s) = ((s : Nat) : α) ∧
    posInputSel inputs S (PyVal.str "concat") (b * S + s) = ((s : Nat) : α) ∧
    posInputSel inputs S (PyVal.str "expand") j = inputs.data j ∧
    SineCosinePositionEmbedding.callOutputDim ⟨true, "add", od⟩ shape =
      shape.getD 2 0 ∧
    SineCosinePositionEmbedding.callBody ops ⟨true, "add", od⟩ inputs B S dOut
        (PyVal.str "add") =
      ⟨[B, S, dOut],
        fun k => embedFlat ops (posInputSel inputs S (PyVal.str "add")) dOut k +
          inputs.data k⟩ := by
  have hmod : (b * S + s) % S = s := by
    rw [add_comm (b * S) s, Nat.add_mul_mod_self_right]
    exact Nat.mod_eq_of_lt hs
  refine ⟨rfl, ?_, ?_, ?_, rfl, rfl⟩
  · unfold posInputSel
    rw [if_pos (Or.inl rfl), hmod]
  · unfold posInputSel
    rw [if_pos (Or.inr rfl), hmod]
  · unfold posInputSel
    rw [if_neg (by decide)]

/-- Witness for pos_input_and_add_composition at ops on the rationals, an empty input
    tensor, seq_len 2, row 1, column 1, flat index 5, batch 1 and width 3. -/
theorem pos_input_and_add_composition_witness :
    1 < 2 ∧
    ((SineCosinePositionEmbedding.call (⟨id, id, fun _ _ => 1⟩ : ScalarOps ℚ)
        ⟨true, "concat", Option.some 4⟩ ⟨[1, 2, 3], fun _ => 0⟩ =
      Except.error scpeModelAttrMsg) ∧
    posInputSel (⟨[], fun _ => 0⟩ : Tensor ℚ) 2 (PyVal.str "add") (1 * 2 + 1) =
      ((1 : Nat) : ℚ) ∧
    posInputSel (⟨[], fun _ => 0⟩ : Tensor ℚ) 2 (PyVal.str "concat") (1 * 2 + 1) =
      ((1 : Nat) : ℚ) ∧
    posInputSel (⟨[], fun _ => 0⟩ : Tensor ℚ) 2 (PyVal.str "expand") 5 =
      (⟨[], fun _ => 0⟩ : Tensor ℚ).data 5 ∧
    SineCosinePositionEmbedding.callOutputDim ⟨true, "add", Option.none⟩ [9] =
      [9].getD 2 0 ∧
    SineCosinePositionEmbedding.callBody (⟨id, id, fun _ _ => 1⟩ : ScalarOps ℚ)
        ⟨true, "add", Option.none⟩ ⟨[], fun _ => 0⟩ 1 2 3 (PyVal.str "add") =
      ⟨[1, 2, 3],
        fun k => embedFlat (⟨id, id, fun _ _ => 1⟩ : ScalarOps ℚ)
          (posInputSel (⟨[], fun _ => 0⟩ : Tensor ℚ) 2 (PyVal.str "add")) 3 k +
          (⟨[], fun _ => 0⟩ : Tensor ℚ).data k⟩) :=
  ⟨by decide,
    pos_input_and_add_composition (⟨id, id, fun _ _ => 1⟩ : ScalarOps ℚ)
      ⟨[], fun _ => 0⟩ 2 1 1 5 1 3 Option.none [9] (by decide)⟩

/-- C9: get_config exports every constructor argument into a flat mapping and the host
    reconstruction cls(**config) rebuilds a layer with equal configuration field
    values, for every FeedForward configuration and for every validly constructed
    SineCosinePositionEmbedding (mode add with any output_dim; modes expand and concat
    with any even output_dim). -/
theorem config_round_trip (c : FeedForwardConfig) (od : Option Nat) (k : Nat) :
    FeedForwardConfig.from_config (FeedForwardConfig.get_config c) = Except.ok c ∧
    SineCosinePositionEmbedding.from_config
        (SineCosinePositionEmbedding.get_config ⟨true, "add", od⟩) =
      Except.ok ⟨true, "add", od⟩ ∧
    SineCosinePositionEmbedding.from_config
        (SineCosinePositionEmbedding.get_config ⟨true, "expand", Option.some (2 * k)⟩) =
      Except.ok ⟨true, "expand", Option.some (2 * k)⟩ ∧
    SineCosinePositionEmbedding.from_config
        (SineCosinePositionEmbedding.get_config ⟨true, "concat", Option.some (2 * k)⟩) =
      Except.ok ⟨true, "concat", Option.some (2 * k)⟩ := by
  have hk : ¬((2 * k) % 2 ≠ 0) := by omega
  refine ⟨?_, ?_, ?_, ?_⟩
  · obtain ⟨u, a, ki, kr, kc, bi, br, bc, ub, dr⟩ := c
    cases a <;> cases ki <;> cases kr <;> cases kc <;> cases bi <;> cases br <;>
      cases bc <;> rfl
  · cases od <;> rfl
  · have h : SineCosinePositionEmbedding.from_config
        (SineCosinePositionEmbedding.get_config ⟨true, "expand", Option.some (2 * k)⟩) =
        SineCosinePositionEmbedding.init "expand" (Option.some (2 * k)) := rfl
    rw [h]
    unfold SineCosinePositionEmbedding.init
    rw [if_pos (by decide), if_pos (by decide)]
    simp only [if_neg hk]
  · have h : SineCosinePositionEmbedding.from_config
        (SineCosinePositionEmbedding.get_config ⟨true, "concat", Option.some (2 * k)⟩) =
        SineCosinePositionEmbedding.init "concat" (Option.some (2 * k)) := rfl
    rw [h]
    unfold SineCosinePositionEmbedding.init
    rw [if_pos (by decide), if_pos (by decide)]
    simp only [if_neg hk]
